import Mathlib

/-!
Shallow embedding of the Jupyter-kernel protocol engine of this repository
(src/index.ts): message framing and authentication (ZmqMessage), reply
derivation (createReply / signAndSend), the shell/control dispatch loop
(ZmqServer.handleShellMessage) and the concrete handler implementation
(JupyterHandlerImpl), together with the fragment of main that selects the
kernel variant.
-/

/-- JSON values as produced by JSON.parse.  Numbers are modelled as integers:
the only numbers the engine itself builds are integer counters, and the
claims never depend on non-integral arithmetic. -/
inductive Json where
  | null : Json
  | bool (b : Bool) : Json
  | num (n : Int) : Json
  | str (s : String) : Json
  | arr (elems : List Json) : Json
  | obj (fields : List (String × Json)) : Json
deriving Repr

/-- JS property read `o[k]` on a parsed JSON value: `none` models the JS
value `undefined` (missing key, or receiver not an object). -/
def lookupKey : List (String × Json) → String → Option Json
  | [], _ => none
  | (k', v) :: rest, k => if k' = k then some v else lookupKey rest k

def Json.get? : Json → String → Option Json
  | Json.obj kvs, k => lookupKey kvs k
  | _, _ => none

/-- JS property write `o[k] = v`: overwrites an existing key in place,
otherwise appends; a non-object receiver is left unchanged (the engine only
ever writes to objects it has just built). -/
def setKey : List (String × Json) → String → Json → List (String × Json)
  | [], k, v => [(k, v)]
  | (k', v') :: rest, k, v =>
    if k' = k then (k, v) :: rest else (k', v') :: setKey rest k v

def Json.set : Json → String → Json → Json
  | Json.obj kvs, k, v => Json.obj (setKey kvs k v)
  | j, _, _ => j

mutual

/-- Canonical JSON serialization (JSON.stringify on parsed data); string
escaping is below the granularity of this model. -/
def Json.ser : Json → String
  | Json.null => "null"
  | Json.bool true => "true"
  | Json.bool false => "false"
  | Json.num n => toString n
  | Json.str s => "\"" ++ s ++ "\""
  | Json.arr xs => "[" ++ Json.serElems xs ++ "]"
  | Json.obj kvs => "\x7b" ++ Json.serFields kvs ++ "\x7d"

def Json.serElems : List Json → String
  | [] => ""
  | [x] => Json.ser x
  | x :: y :: rest => Json.ser x ++ "," ++ Json.serElems (y :: rest)

def Json.serFields : List (String × Json) → String
  | [] => ""
  | [(k, v)] => "\"" ++ k ++ "\":" ++ Json.ser v
  | (k, v) :: f :: rest =>
    "\"" ++ k ++ "\":" ++ Json.ser v ++ "," ++ Json.serFields (f :: rest)

end

/-- One wire frame (a zeromq Buffer).  The embedding is intensional: a frame
either carries the canonical serialization of a JSON value (`jsonF`), on
which JSON.parse succeeds and returns that value, or carries bytes on which
JSON.parse throws (`rawF`). -/
inductive Frame where
  | jsonF (j : Json) : Frame
  | rawF (s : String) : Frame
deriving Repr

/-- Buffer.prototype.toString(): the byte content of the frame as text. -/
def Frame.text : Frame → String
  | Frame.jsonF j => Json.ser j
  | Frame.rawF s => s

/-- JSON.parse applied to a frame's bytes (throws on a `rawF` frame). -/
def Frame.parse : Frame → Option Json
  | Frame.jsonF j => some j
  | Frame.rawF _ => none

/-- JSON.stringify applied to a raw Buffer frame (signAndSend, line 290 of
src/index.ts, serializes each extra buffer): a Node Buffer stringifies to the
JSON object `\x7b"type":"Buffer","data":[...]\x7d`; the byte content of the
buffer is carried in the `data` field, here at text granularity. -/
def stringifyBuffer (f : Frame) : Frame :=
  Frame.jsonF (Json.obj [("type", Json.str "Buffer"), ("data", Json.str f.text)])

/-- The HMAC-SHA256 primitive from the crypto library, abstracted: a keyed
digest of a sequence of frames (createHmac("sha256", key) followed by one
update per frame, digested to hex).  The engine is parametric in it. -/
def HmacFun : Type := String → List Frame → String

/-- The wire message record (class ZmqMessage, src/index.ts lines 214-223).
`identity` and `delim` are kept at frame granularity (the source converts
them to strings and back byte-faithfully); `header`, `parent`, `metadata`
and `content` are the parsed JSON body values. -/
structure ZmqMessage where
  identity : Frame
  delim : Frame
  hmac : String
  header : Json
  parent : Json
  metadata : Json
  content : Json
  extra : List Frame
deriving Repr

/-- Decode failures of ZmqMessage.fromRaw: a JSON.parse throw on the body
frame at the given position, an HMAC mismatch (carrying the received and the
freshly computed tag, in the order the thrown message names them), or a
frame batch too short to populate the fixed positions. -/
inductive DecodeError where
  | malformed (idx : Nat) : DecodeError
  | badHmac (received : String) (expected : String) : DecodeError
  | missingFrame : DecodeError
deriving Repr, DecidableEq

namespace ZmqMessage

/-- ZmqMessage.verifyHmac (src/index.ts lines 226-236): recompute the keyed
digest over `rest` and compare with the received hex tag; on mismatch throw
an error naming the received tag and then the computed one. -/
def verifyHmac (H : HmacFun) (key : String) (hmac : String) (rest : List Frame) :
    Except DecodeError Unit :=
  let hex := H key rest
  if hex = hmac then Except.ok ()
  else Except.error (DecodeError.badHmac hmac hex)

/-- ZmqMessage.fromRaw (src/index.ts lines 238-250): fixed-position frame
layout `identity, delim, hmac, header, parent, metadata, content, extra...`;
each body frame is JSON-parsed in order, then the HMAC is verified over the
raw frames from position 3 onwards. -/
def fromRaw (H : HmacFun) (key : String) (raw : List Frame) :
    Except DecodeError ZmqMessage :=
  match raw with
  | f0 :: f1 :: f2 :: f3 :: f4 :: f5 :: f6 :: extra =>
    match f3.parse with
    | none => Except.error (DecodeError.malformed 3)
    | some header =>
      match f4.parse with
      | none => Except.error (DecodeError.malformed 4)
      | some parent =>
        match f5.parse with
        | none => Except.error (DecodeError.malformed 5)
        | some md =>
          match f6.parse with
          | none => Except.error (DecodeError.malformed 6)
          | some content =>
            match verifyHmac H key f2.text (f3 :: f4 :: f5 :: f6 :: extra) with
            | Except.error e => Except.error e
            | Except.ok _ =>
              Except.ok
                { identity := f0, delim := f1, hmac := f2.text,
                  header := header, parent := parent, metadata := md,
                  content := content, extra := extra }
  | _ => Except.error DecodeError.missingFrame

/-- Builds the list entry for one reply-header field copied from the request
header: a JS object literal drops a key whose value is undefined. -/
def objField (k : String) : Option Json → List (String × Json)
  | some v => [(k, v)]
  | none => []

/-- ZmqMessage.createReply (src/index.ts lines 257-278): identity and delim
are copied from the request, hmac is cleared, the reply header gets version
"5.3", the current timestamp, and the request's session, username, msg_type
and msg_id (msg_id is copied, not regenerated: newIdentity is never called);
parent is the request's header; metadata, content and extra start empty.
`now` stands for new Date().toISOString(). -/
def createReply (now : String) (m : ZmqMessage) : ZmqMessage :=
  { identity := m.identity
    delim := m.delim
    hmac := ""
    header := Json.obj
      ([("version", Json.str "5.3"), ("date", Json.str now)]
        ++ objField "session" (m.header.get? "session")
        ++ objField "username" (m.header.get? "username")
        ++ objField "msg_type" (m.header.get? "msg_type")
        ++ objField "msg_id" (m.header.get? "msg_id"))
    parent := m.header
    metadata := Json.obj []
    content := Json.obj []
    extra := [] }

/-- The body frames hashed and sent by signAndSend, in source order: the four
serialized JSON bodies followed by the JSON.stringify of each extra buffer. -/
def bodyFrames (m : ZmqMessage) : List Frame :=
  Frame.jsonF m.header :: Frame.jsonF m.parent :: Frame.jsonF m.metadata ::
    Frame.jsonF m.content :: m.extra.map stringifyBuffer

/-- ZmqMessage.signAndSend (src/index.ts lines 280-300): the frame batch
pushed to the socket — identity, delim, the hex digest of the body frames
under the key, then the body frames. -/
def signAndSend (H : HmacFun) (key : String) (m : ZmqMessage) : List Frame :=
  m.identity :: m.delim :: Frame.rawF (H key (bodyFrames m)) :: bodyFrames m

end ZmqMessage

/-- The five logical sockets bound in ZmqServer.init. -/
inductive Chan where
  | shell : Chan
  | control : Chan
  | stdin : Chan
  | iopub : Chan
  | hb : Chan
deriving Repr, DecidableEq

/-- Observable effects of processing one frame batch: a frame batch pushed to
one socket (sock.send), or a console.warn line. -/
inductive Event where
  | send (c : Chan) (frames : List Frame) : Event
  | warn (msg : String) : Event
deriving Repr

def Event.isIopubSend : Event → Bool
  | Event.send Chan.iopub _ => true
  | _ => false

/-- Whether an event is compatible with replying only on the given socket:
warnings are not sends, and a send must target that socket. -/
def Event.onChan (sock : Chan) : Event → Bool
  | Event.send c _ => c == sock
  | Event.warn _ => true

/-- A thrown exception escaping handleShellMessage: either the decode throw
from ZmqMessage.fromRaw (before any status is published) or a throw from the
routed handler (caught only by the finally that publishes idle). -/
inductive Failure where
  | decode (e : DecodeError) : Failure
  | handler (e : String) : Failure
deriving Repr

/-- The JupyterHandler interface (src/index.ts lines 303-308).  σ models the
mutable fields of the implementing object (the execution counter for
JupyterHandlerImpl); `Except String` models a thrown exception. -/
structure JupyterHandler (σ : Type) where
  handleKernel : σ → Except String (σ × Json)
  handleExecute : Json → σ → Except String (σ × Json)
  handleIsComplete : Json → σ → Except String (σ × Json)
  handleShutdown : Json → σ → Except String (σ × Json)

/-- The reply skeleton shared by the four reply paths and publishStatus:
createReply, then overwrite header.msg_type and set content. -/
def replyWith (now : String) (m : ZmqMessage) (mt : String) (content : Json) :
    ZmqMessage :=
  let rep := ZmqMessage.createReply now m
  { rep with header := rep.header.set "msg_type" (Json.str mt), content := content }

/-- The status broadcast message built by ZmqServer.publishStatus
(src/index.ts lines 381-388): a reply to `parent` with msg_type "status" and
content carrying the execution_state. -/
def statusMessage (now : String) (status : String) (parent : ZmqMessage) :
    ZmqMessage :=
  replyWith now parent "status" (Json.obj [("execution_state", Json.str status)])

namespace ZmqServer

/-- ZmqServer.publishStatus: sign the status message and send its frames (the
caller pushes them to the iopub socket). -/
def publishStatus (H : HmacFun) (key : String) (status : String) (now : String)
    (parent : ZmqMessage) : List Frame :=
  ZmqMessage.signAndSend H key (statusMessage now status parent)

/-- ZmqServer.handleKernelInfo (src/index.ts lines 415-420): build the reply,
set msg_type "kernel_info_reply", fill content from the handler, and send on
the originating socket.  A handler throw yields no send and propagates. -/
def handleKernelInfo {σ : Type} (H : HmacFun) (key : String)
    (hd : JupyterHandler σ) (sock : Chan) (now : String) (st : σ)
    (msg : ZmqMessage) : σ × List Event × Option Failure :=
  match hd.handleKernel st with
  | Except.ok (st', c) =>
    (st', [Event.send sock (ZmqMessage.signAndSend H key
      (replyWith now msg "kernel_info_reply" c))], none)
  | Except.error e => (st, [], some (Failure.handler e))

/-- ZmqServer.handleExecute (src/index.ts lines 422-427). -/
def handleExecute {σ : Type} (H : HmacFun) (key : String)
    (hd : JupyterHandler σ) (sock : Chan) (now : String) (st : σ)
    (msg : ZmqMessage) : σ × List Event × Option Failure :=
  match hd.handleExecute msg.content st with
  | Except.ok (st', c) =>
    (st', [Event.send sock (ZmqMessage.signAndSend H key
      (replyWith now msg "execute_reply" c))], none)
  | Except.error e => (st, [], some (Failure.handler e))

/-- ZmqServer.handleIsComplete (src/index.ts lines 429-436). -/
def handleIsComplete {σ : Type} (H : HmacFun) (key : String)
    (hd : JupyterHandler σ) (sock : Chan) (now : String) (st : σ)
    (msg : ZmqMessage) : σ × List Event × Option Failure :=
  match hd.handleIsComplete msg.content st with
  | Except.ok (st', c) =>
    (st', [Event.send sock (ZmqMessage.signAndSend H key
      (replyWith now msg "is_complete_reply" c))], none)
  | Except.error e => (st, [], some (Failure.handler e))

/-- ZmqServer.handleShutdown (src/index.ts lines 438-443). -/
def handleShutdown {σ : Type} (H : HmacFun) (key : String)
    (hd : JupyterHandler σ) (sock : Chan) (now : String) (st : σ)
    (msg : ZmqMessage) : σ × List Event × Option Failure :=
  match hd.handleShutdown msg.content st with
  | Except.ok (st', c) =>
    (st', [Event.send sock (ZmqMessage.signAndSend H key
      (replyWith now msg "shutdown_reply" c))], none)
  | Except.error e => (st, [], some (Failure.handler e))

/-- msg.header.msg_type as seen by the switch: a JS strict-equality case only
matches when the property holds a string, so any non-string (including the
undefined of a missing key or a non-object header) funnels to default. -/
def msgTypeStr (m : ZmqMessage) : Option String :=
  match m.header.get? "msg_type" with
  | some (Json.str s) => some s
  | _ => none

/-- The console.warn line of the default arm (template-literal display of
the msg_type value; a missing or non-string value displays as JS would show
undefined at this model's granularity). -/
def unknownWarn (t : Option String) : String :=
  "unknown msg_type: " ++ (match t with | some s => s | none => "undefined")

/-- The switch on msg.header.msg_type inside ZmqServer.handleShellMessage
(src/index.ts lines 394-409); the default arm logs a warning and sends
nothing. -/
def routeMessage {σ : Type} (H : HmacFun) (key : String)
    (hd : JupyterHandler σ) (sock : Chan) (now : String) (st : σ)
    (msg : ZmqMessage) : σ × List Event × Option Failure :=
  let t := msgTypeStr msg
  if t = some "kernel_info_request" then
    handleKernelInfo H key hd sock now st msg
  else if t = some "execute_request" then
    handleExecute H key hd sock now st msg
  else if t = some "is_complete_request" then
    handleIsComplete H key hd sock now st msg
  else if t = some "shutdown_request" then
    handleShutdown H key hd sock now st msg
  else
    (st, [Event.warn (unknownWarn t)], none)

/-- ZmqServer.handleShellMessage (src/index.ts lines 390-413): decode (a
decode throw aborts with no event), publish busy, route inside a try whose
finally publishes idle; a handler throw still reaches the idle publish and
then propagates.  `nB`, `nR`, `nI` are the timestamps of the busy status,
the reply and the idle status. -/
def handleShellMessage {σ : Type} (H : HmacFun) (key : String)
    (hd : JupyterHandler σ) (sock : Chan) (nB nR nI : String) (st : σ)
    (raw : List Frame) : σ × List Event × Option Failure :=
  match ZmqMessage.fromRaw H key raw with
  | Except.error e => (st, [], some (Failure.decode e))
  | Except.ok msg =>
    let r := routeMessage H key hd sock nR st msg
    (r.1,
      Event.send Chan.iopub (publishStatus H key "busy" nB msg)
        :: r.2.1 ++ [Event.send Chan.iopub (publishStatus H key "idle" nI msg)],
      r.2.2)

end ZmqServer

namespace JupyterHandlerImpl

/-- JupyterHandlerImpl.handleKernel (src/index.ts lines 326-339).  `ts` is
the constructor flag selecting the TypeScript variant. -/
def handleKernel (ts : Bool) : Json :=
  Json.obj
    [("protocol_version", Json.str "5.3"),
     ("implementation", Json.str (if ts then "tslab" else "jslab")),
     ("implementation_version", Json.str "1.0.0"),
     ("language_info", Json.obj
       [("name", Json.str "javascript"),
        ("version", Json.str ""),
        ("mimetype", Json.str ""),
        ("file_extension", Json.str (if ts then ".ts" else ".js"))]),
     ("banner", Json.str "TypeScript")]

/-- JupyterHandlerImpl.handleExecute (src/index.ts lines 341-347): the state
is the private execCount.  executor.execute(req.code) is started and its
promise dropped — `execResult` is the success/failure the executor would
eventually report, and its value is discarded exactly as the source drops
the promise; the reply is always status "ok" with the pre-incremented
counter. -/
def handleExecute (execResult : Option Json → Bool) (req : Json) (st : Nat) :
    Nat × Json :=
  let _promise := execResult (req.get? "code")
  (st + 1,
    Json.obj [("status", Json.str "ok"),
              ("execution_count", Json.num (Int.ofNat (st + 1)))])

/-- JupyterHandlerImpl.handleIsComplete (src/index.ts lines 349-353). -/
def handleIsComplete (req : Json) (st : Nat) : Nat × Json :=
  (st, Json.obj [("status", Json.str "complete")])

/-- JupyterHandlerImpl.handleShutdown (src/index.ts lines 354-360): logs the
request, closes the converter (external), and always replies restart: false
regardless of the requested flag. -/
def handleShutdown (req : Json) (st : Nat) : Nat × Json :=
  (st, Json.obj [("restart", Json.bool false)])

/-- The JupyterHandlerImpl object as a JupyterHandler over its execCount
state; none of its methods throws. -/
def handler (ts : Bool) (execResult : Option Json → Bool) : JupyterHandler Nat :=
  { handleKernel := fun st => Except.ok (st, handleKernel ts)
    handleExecute := fun req st => Except.ok (handleExecute execResult req st)
    handleIsComplete := fun req st => Except.ok (handleIsComplete req st)
    handleShutdown := fun req st => Except.ok (handleShutdown req st) }

end JupyterHandlerImpl

/-- main (src/index.ts lines 472-482) computes whether the process was
invoked as the TypeScript kernel from the basename of argv[1]:
cmd.startsWith("ts"), i.e. the characters "ts" lead the command name. -/
def mainTsFlag (cmd : String) : Bool := List.isPrefixOf "ts".data cmd.data

/-- The flag main actually passes to `new JupyterHandlerImpl(true)`
(src/index.ts line 480): the literal true, ignoring the computed flag. -/
def mainHandlerFlag (cmd : String) : Bool := true

/-- The execute_reply content JupyterHandlerImpl.handleExecute builds for
counter value n. -/
def execReplyJson (n : Nat) : Json :=
  Json.obj [("status", Json.str "ok"),
            ("execution_count", Json.num (Int.ofNat n))]

/-- The position of the first body frame JSON.parse throws on, in the order
fromRaw parses them (header 3, parent 4, metadata 5, content 6); yields 6
when only the content frame is bad. -/
def firstBadBody (b3 b4 b5 b6 : Frame) : Nat :=
  if b3.parse.isNone then 3
  else if b4.parse.isNone then 4
  else if b5.parse.isNone then 5
  else 6

/-! Concrete instances evaluated by the witnesses below. -/

/-- A toy keyed digest standing in for the abstract HMAC in concrete runs. -/
def constH : HmacFun := fun _ _ => "t"

def mkHeader (mt : String) : Json :=
  Json.obj [("version", Json.str "5.3"), ("date", Json.str "d0"),
            ("session", Json.str "s0"), ("username", Json.str "u0"),
            ("msg_type", Json.str mt), ("msg_id", Json.str "req-1")]

/-- A well-signed inbound frame batch under `constH` carrying msg_type mt. -/
def mkRaw (mt : String) : List Frame :=
  [Frame.rawF "id0", Frame.rawF "<IDS|MSG>", Frame.rawF "t",
   Frame.jsonF (mkHeader mt), Frame.jsonF (Json.obj []),
   Frame.jsonF (Json.obj []), Frame.jsonF (Json.obj [])]

/-- The message `mkRaw mt` decodes to. -/
def mkMsg (mt : String) : ZmqMessage :=
  { identity := Frame.rawF "id0", delim := Frame.rawF "<IDS|MSG>", hmac := "t",
    header := mkHeader mt, parent := Json.obj [], metadata := Json.obj [],
    content := Json.obj [], extra := [] }

/-- A concrete never-throwing handler instance. -/
def implH : JupyterHandler Nat := JupyterHandlerImpl.handler true (fun _ => true)

/-- A frame batch whose received tag differs from the recomputed one. -/
def badTagRaw : List Frame :=
  [Frame.rawF "id0", Frame.rawF "<IDS|MSG>", Frame.rawF "bad",
   Frame.jsonF (mkHeader "kernel_info_request"), Frame.jsonF (Json.obj []),
   Frame.jsonF (Json.obj []), Frame.jsonF (Json.obj [])]

/-- A frame batch whose metadata frame is not valid JSON. -/
def badJsonRaw : List Frame :=
  [Frame.rawF "id0", Frame.rawF "<IDS|MSG>", Frame.rawF "t",
   Frame.jsonF (mkHeader "kernel_info_request"), Frame.jsonF (Json.obj []),
   Frame.rawF "not json", Frame.jsonF (Json.obj [])]

/-- A message carrying one extra binary buffer. -/
def exMsgX : ZmqMessage :=
  { mkMsg "kernel_info_request" with hmac := "", extra := [Frame.rawF "x"] }

/-- What decoding the re-encoded `exMsgX` actually yields: the extra buffer
comes back as its JSON-stringified form, not as the original bytes. -/
def exMsgXDec : ZmqMessage :=
  { mkMsg "kernel_info_request" with
    hmac := "t",
    extra := [Frame.jsonF (Json.obj
      [("type", Json.str "Buffer"), ("data", Json.str "x")])] }

/-! ### Helper lemmas -/

theorem Json.get?_obj (kvs : List (String × Json)) (k : String) :
    Json.get? (Json.obj kvs) k = lookupKey kvs k := rfl

theorem lookupKey_setKey_self (l : List (String × Json)) (k : String) (v : Json) :
    lookupKey (setKey l k v) k = some v := by
  induction l with
  | nil => simp [setKey, lookupKey]
  | cons p rest ih =>
    obtain ⟨k', v'⟩ := p
    by_cases h : k' = k
    · simp [setKey, h, lookupKey]
    · simp [setKey, h, lookupKey, ih]

theorem lookupKey_setKey_ne (l : List (String × Json)) (k k' : String) (v : Json)
    (h : k ≠ k') : lookupKey (setKey l k v) k' = lookupKey l k' := by
  induction l with
  | nil => simp [setKey, lookupKey, h]
  | cons p rest ih =>
    obtain ⟨a, b⟩ := p
    by_cases ha : a = k
    · subst ha
      simp [setKey, lookupKey, h]
    · simp [setKey, ha, lookupKey, ih]

theorem createReply_get_session (now : String) (m : ZmqMessage) :
    (ZmqMessage.createReply now m).header.get? "session" = m.header.get? "session" := by
  cases hs : m.header.get? "session" <;> cases hu : m.header.get? "username" <;>
    cases ht : m.header.get? "msg_type" <;> cases hi : m.header.get? "msg_id" <;>
      simp [ZmqMessage.createReply, Json.get?_obj, ZmqMessage.objField, lookupKey,
            hs, hu, ht, hi]

theorem createReply_get_username (now : String) (m : ZmqMessage) :
    (ZmqMessage.createReply now m).header.get? "username" = m.header.get? "username" := by
  cases hs : m.header.get? "session" <;> cases hu : m.header.get? "username" <;>
    cases ht : m.header.get? "msg_type" <;> cases hi : m.header.get? "msg_id" <;>
      simp [ZmqMessage.createReply, Json.get?_obj, ZmqMessage.objField, lookupKey,
            hs, hu, ht, hi]

theorem createReply_get_msg_id (now : String) (m : ZmqMessage) :
    (ZmqMessage.createReply now m).header.get? "msg_id" = m.header.get? "msg_id" := by
  cases hs : m.header.get? "session" <;> cases hu : m.header.get? "username" <;>
    cases ht : m.header.get? "msg_type" <;> cases hi : m.header.get? "msg_id" <;>
      simp [ZmqMessage.createReply, Json.get?_obj, ZmqMessage.objField, lookupKey,
            hs, hu, ht, hi]

theorem replyWith_msg_type (now : String) (m : ZmqMessage) (mt : String) (c : Json) :
    (replyWith now m mt c).header.get? "msg_type" = some (Json.str mt) := by
  simp [replyWith, ZmqMessage.createReply, Json.set, Json.get?, lookupKey_setKey_self]

theorem replyWith_get_ne (now : String) (m : ZmqMessage) (mt : String) (c : Json)
    (k : String) (hk : "msg_type" ≠ k) :
    (replyWith now m mt c).header.get? k = (ZmqMessage.createReply now m).header.get? k := by
  simp [replyWith, ZmqMessage.createReply, Json.set, Json.get?,
        lookupKey_setKey_ne _ _ _ _ hk]

theorem isIopubSend_send (c : Chan) (fs : List Frame) :
    Event.isIopubSend (Event.send c fs) = decide (c = Chan.iopub) := by
  cases c <;> rfl

theorem handleShellMessage_ok {σ : Type} (H : HmacFun) (key : String)
    (hd : JupyterHandler σ) (sock : Chan) (nB nR nI : String) (st : σ)
    (raw : List Frame) (msg : ZmqMessage)
    (hdec : ZmqMessage.fromRaw H key raw = Except.ok msg) :
    ZmqServer.handleShellMessage H key hd sock nB nR nI st raw =
      ((ZmqServer.routeMessage H key hd sock nR st msg).1,
       Event.send Chan.iopub (ZmqServer.publishStatus H key "busy" nB msg)
         :: (ZmqServer.routeMessage H key hd sock nR st msg).2.1
         ++ [Event.send Chan.iopub (ZmqServer.publishStatus H key "idle" nI msg)],
       (ZmqServer.routeMessage H key hd sock nR st msg).2.2) := by
  unfold ZmqServer.handleShellMessage
  rw [hdec]

theorem handleShellMessage_error {σ : Type} (H : HmacFun) (key : String)
    (hd : JupyterHandler σ) (sock : Chan) (nB nR nI : String) (st : σ)
    (raw : List Frame) (e : DecodeError)
    (hdec : ZmqMessage.fromRaw H key raw = Except.error e) :
    ZmqServer.handleShellMessage H key hd sock nB nR nI st raw
      = (st, [], some (Failure.decode e)) := by
  unfold ZmqServer.handleShellMessage
  rw [hdec]

theorem handleKernelInfo_events {σ : Type} (H : HmacFun) (key : String)
    (hd : JupyterHandler σ) (sock : Chan) (now : String) (st : σ) (msg : ZmqMessage) :
    ∀ e ∈ (ZmqServer.handleKernelInfo H key hd sock now st msg).2.1,
      ∃ c, e = Event.send sock (ZmqMessage.signAndSend H key
        (replyWith now msg "kernel_info_reply" c)) := by
  intro e he
  cases hk : hd.handleKernel st with
  | ok p =>
    obtain ⟨st', c⟩ := p
    simp [ZmqServer.handleKernelInfo, hk] at he
    exact ⟨c, he⟩
  | error err => simp [ZmqServer.handleKernelInfo, hk] at he

theorem handleExecute_events {σ : Type} (H : HmacFun) (key : String)
    (hd : JupyterHandler σ) (sock : Chan) (now : String) (st : σ) (msg : ZmqMessage) :
    ∀ e ∈ (ZmqServer.handleExecute H key hd sock now st msg).2.1,
      ∃ c, e = Event.send sock (ZmqMessage.signAndSend H key
        (replyWith now msg "execute_reply" c)) := by
  intro e he
  cases hk : hd.handleExecute msg.content st with
  | ok p =>
    obtain ⟨st', c⟩ := p
    simp [ZmqServer.handleExecute, hk] at he
    exact ⟨c, he⟩
  | error err => simp [ZmqServer.handleExecute, hk] at he

theorem handleIsComplete_events {σ : Type} (H : HmacFun) (key : String)
    (hd : JupyterHandler σ) (sock : Chan) (now : String) (st : σ) (msg : ZmqMessage) :
    ∀ e ∈ (ZmqServer.handleIsComplete H key hd sock now st msg).2.1,
      ∃ c, e = Event.send sock (ZmqMessage.signAndSend H key
        (replyWith now msg "is_complete_reply" c)) := by
  intro e he
  cases hk : hd.handleIsComplete msg.content st with
  | ok p =>
    obtain ⟨st', c⟩ := p
    simp [ZmqServer.handleIsComplete, hk] at he
    exact ⟨c, he⟩
  | error err => simp [ZmqServer.handleIsComplete, hk] at he

theorem handleShutdown_events {σ : Type} (H : HmacFun) (key : String)
    (hd : JupyterHandler σ) (sock : Chan) (now : String) (st : σ) (msg : ZmqMessage) :
    ∀ e ∈ (ZmqServer.handleShutdown H key hd sock now st msg).2.1,
      ∃ c, e = Event.send sock (ZmqMessage.signAndSend H key
        (replyWith now msg "shutdown_reply" c)) := by
  intro e he
  cases hk : hd.handleShutdown msg.content st with
  | ok p =>
    obtain ⟨st', c⟩ := p
    simp [ZmqServer.handleShutdown, hk] at he
    exact ⟨c, he⟩
  | error err => simp [ZmqServer.handleShutdown, hk] at he

theorem routeMessage_events {σ : Type} (H : HmacFun) (key : String)
    (hd : JupyterHandler σ) (sock : Chan) (now : String) (st : σ) (msg : ZmqMessage) :
    ∀ e ∈ (ZmqServer.routeMessage H key hd sock now st msg).2.1,
      (∃ w, e = Event.warn w) ∨
      ∃ mt c, e = Event.send sock (ZmqMessage.signAndSend H key
        (replyWith now msg mt c)) := by
  intro e he
  simp only [ZmqServer.routeMessage] at he
  by_cases h1 : ZmqServer.msgTypeStr msg = some "kernel_info_request"
  · rw [if_pos h1] at he
    obtain ⟨c, rfl⟩ := handleKernelInfo_events H key hd sock now st msg e he
    exact Or.inr ⟨"kernel_info_reply", c, rfl⟩
  · rw [if_neg h1] at he
    by_cases h2 : ZmqServer.msgTypeStr msg = some "execute_request"
    · rw [if_pos h2] at he
      obtain ⟨c, rfl⟩ := handleExecute_events H key hd sock now st msg e he
      exact Or.inr ⟨"execute_reply", c, rfl⟩
    · rw [if_neg h2] at he
      by_cases h3 : ZmqServer.msgTypeStr msg = some "is_complete_request"
      · rw [if_pos h3] at he
        obtain ⟨c, rfl⟩ := handleIsComplete_events H key hd sock now st msg e he
        exact Or.inr ⟨"is_complete_reply", c, rfl⟩
      · rw [if_neg h3] at he
        by_cases h4 : ZmqServer.msgTypeStr msg = some "shutdown_request"
        · rw [if_pos h4] at he
          obtain ⟨c, rfl⟩ := handleShutdown_events H key hd sock now st msg e he
          exact Or.inr ⟨"shutdown_reply", c, rfl⟩
        · rw [if_neg h4] at he
          simp at he
          exact Or.inl ⟨_, he⟩

theorem routeMessage_default {σ : Type} (H : HmacFun) (key : String)
    (hd : JupyterHandler σ) (sock : Chan) (now : String) (st : σ) (msg : ZmqMessage)
    (h1 : ZmqServer.msgTypeStr msg ≠ some "kernel_info_request")
    (h2 : ZmqServer.msgTypeStr msg ≠ some "execute_request")
    (h3 : ZmqServer.msgTypeStr msg ≠ some "is_complete_request")
    (h4 : ZmqServer.msgTypeStr msg ≠ some "shutdown_request") :
    ZmqServer.routeMessage H key hd sock now st msg
      = (st, [Event.warn (ZmqServer.unknownWarn (ZmqServer.msgTypeStr msg))], none) := by
  simp [ZmqServer.routeMessage, h1, h2, h3, h4]

theorem mkRaw_decodes (mt : String) :
    ZmqMessage.fromRaw constH "k" (mkRaw mt) = Except.ok (mkMsg mt) := rfl

theorem mkMsg_msgType (mt : String) : ZmqServer.msgTypeStr (mkMsg mt) = some mt := rfl

/-! ### Claim theorems -/

/-- C1: for every inbound frame batch whose body frames parse, fromRaw
computes the keyed digest over the raw body frames — header, parentHeader,
metadata, content, extraBuffers, in that order — under the shared secret;
when the received signature frame differs from that digest, decoding fails
with an error naming the received tag and the expected tag, and
handleShellMessage produces no event at all: the message is neither routed
to a handler nor answered, for any handler, socket and state. -/
theorem c1_hmac_mismatch {σ : Type} (H : HmacFun) (key : String)
    (hd : JupyterHandler σ) (sock : Chan) (nB nR nI : String) (st : σ)
    (f0 f1 f2 : Frame) (h p md c : Json) (extra : List Frame)
    (hne : H key (Frame.jsonF h :: Frame.jsonF p :: Frame.jsonF md ::
      Frame.jsonF c :: extra) ≠ f2.text) :
    ZmqMessage.fromRaw H key (f0 :: f1 :: f2 :: Frame.jsonF h :: Frame.jsonF p ::
        Frame.jsonF md :: Frame.jsonF c :: extra)
      = Except.error (DecodeError.badHmac f2.text
          (H key (Frame.jsonF h :: Frame.jsonF p :: Frame.jsonF md ::
            Frame.jsonF c :: extra)))
    ∧ ZmqServer.handleShellMessage H key hd sock nB nR nI st
        (f0 :: f1 :: f2 :: Frame.jsonF h :: Frame.jsonF p :: Frame.jsonF md ::
          Frame.jsonF c :: extra)
      = (st, [], some (Failure.decode (DecodeError.badHmac f2.text
          (H key (Frame.jsonF h :: Frame.jsonF p :: Frame.jsonF md ::
            Frame.jsonF c :: extra))))) := by
  have hfr : ZmqMessage.fromRaw H key (f0 :: f1 :: f2 :: Frame.jsonF h ::
      Frame.jsonF p :: Frame.jsonF md :: Frame.jsonF c :: extra)
      = Except.error (DecodeError.badHmac f2.text
          (H key (Frame.jsonF h :: Frame.jsonF p :: Frame.jsonF md ::
            Frame.jsonF c :: extra))) := by
    simp [ZmqMessage.fromRaw, Frame.parse, ZmqMessage.verifyHmac, hne]
  exact ⟨hfr, handleShellMessage_error H key hd sock nB nR nI st _ _ hfr⟩

theorem c1_witness :
    ZmqMessage.fromRaw constH "k" badTagRaw
      = Except.error (DecodeError.badHmac "bad" "t")
    ∧ ZmqServer.handleShellMessage constH "k" implH Chan.shell "b" "r" "i" 0 badTagRaw
      = (0, [], some (Failure.decode (DecodeError.badHmac "bad" "t"))) :=
  c1_hmac_mismatch constH "k" implH Chan.shell "b" "r" "i" 0
    (Frame.rawF "id0") (Frame.rawF "<IDS|MSG>") (Frame.rawF "bad")
    (mkHeader "kernel_info_request") (Json.obj []) (Json.obj []) (Json.obj []) []
    (by decide)

/-- C3 counterexample: a concretely decoded execute_request whose reply,
built by createReply, carries exactly the request's msg_id ("req-1") — the
claimed freshly generated, differing msg_id is refuted at this input. -/
theorem c3_counterexample :
    ZmqMessage.fromRaw constH "k" (mkRaw "execute_request")
      = Except.ok (mkMsg "execute_request")
    ∧ (ZmqMessage.createReply "2020-01-01T00:00:00.000Z"
        (mkMsg "execute_request")).header.get? "msg_id" = some (Json.str "req-1")
    ∧ (mkMsg "execute_request").header.get? "msg_id" = some (Json.str "req-1") :=
  ⟨rfl, rfl, rfl⟩

/-- C3 amended: createReply copies the request's msg_id into the reply's own
header (the newIdentity generator exists but is never invoked), so the
reply's header.msg_id always equals the request's header.msg_id. -/
theorem c3_msg_id_copied (now : String) (m : ZmqMessage) :
    (ZmqMessage.createReply now m).header.get? "msg_id"
      = m.header.get? "msg_id" :=
  createReply_get_msg_id now m

/-- C4: when some JSON body frame of a full batch fails to parse, fromRaw
fails with the parse error of the first bad body position — an error
independent of the digest function and the secret, fixed before any HMAC
computation — and handleShellMessage drops the message with no reply and no
busy/idle status event. -/
theorem c4_malformed_drops {σ : Type} (H : HmacFun) (key : String)
    (hd : JupyterHandler σ) (sock : Chan) (nB nR nI : String) (st : σ)
    (f0 f1 f2 b3 b4 b5 b6 : Frame) (extra : List Frame)
    (hbad : b3.parse = none ∨ b4.parse = none ∨ b5.parse = none ∨ b6.parse = none) :
    ZmqMessage.fromRaw H key (f0 :: f1 :: f2 :: b3 :: b4 :: b5 :: b6 :: extra)
      = Except.error (DecodeError.malformed (firstBadBody b3 b4 b5 b6))
    ∧ ZmqServer.handleShellMessage H key hd sock nB nR nI st
        (f0 :: f1 :: f2 :: b3 :: b4 :: b5 :: b6 :: extra)
      = (st, [], some (Failure.decode
          (DecodeError.malformed (firstBadBody b3 b4 b5 b6)))) := by
  have hfr : ZmqMessage.fromRaw H key (f0 :: f1 :: f2 :: b3 :: b4 :: b5 :: b6 :: extra)
      = Except.error (DecodeError.malformed (firstBadBody b3 b4 b5 b6)) := by
    cases h3 : b3.parse with
    | none => simp [ZmqMessage.fromRaw, firstBadBody, h3]
    | some j3 =>
      cases h4 : b4.parse with
      | none => simp [ZmqMessage.fromRaw, firstBadBody, h3, h4]
      | some j4 =>
        cases h5 : b5.parse with
        | none => simp [ZmqMessage.fromRaw, firstBadBody, h3, h4, h5]
        | some j5 =>
          cases h6 : b6.parse with
          | none => simp [ZmqMessage.fromRaw, firstBadBody, h3, h4, h5, h6]
          | some j6 => simp [h3, h4, h5, h6] at hbad
  exact ⟨hfr, handleShellMessage_error H key hd sock nB nR nI st _ _ hfr⟩

theorem c4_witness :
    ZmqMessage.fromRaw constH "k" badJsonRaw
      = Except.error (DecodeError.malformed 5)
    ∧ ZmqServer.handleShellMessage constH "k" implH Chan.shell "b" "r" "i" 0 badJsonRaw
      = (0, [], some (Failure.decode (DecodeError.malformed 5))) :=
  c4_malformed_drops constH "k" implH Chan.shell "b" "r" "i" 0
    (Frame.rawF "id0") (Frame.rawF "<IDS|MSG>") (Frame.rawF "t")
    (Frame.jsonF (mkHeader "kernel_info_request")) (Frame.jsonF (Json.obj []))
    (Frame.rawF "not json") (Frame.jsonF (Json.obj [])) []
    (Or.inr (Or.inr (Or.inl rfl)))

/-- C5 counterexample: encoding a message that carries one extra binary
buffer and decoding the result succeeds, but the decoded message's
extraBuffers field differs from the original (the buffer comes back as its
JSON-stringified object form), refuting equality in every field except the
signature. -/
theorem c5_counterexample :
    ZmqMessage.fromRaw constH "k" (ZmqMessage.signAndSend constH "k" exMsgX)
      = Except.ok exMsgXDec
    ∧ exMsgXDec.extra ≠ exMsgX.extra := by
  refine ⟨rfl, ?_⟩
  simp [exMsgXDec, exMsgX, mkMsg]

/-- C5 amended: for every message with no extra buffers, decoding the frames
produced by signAndSend under the same secret succeeds and returns the
message unchanged in every field except the signature, which is the freshly
recomputed digest over the body frames (so it validates under that secret).
With extra buffers present the signature still validates but the buffers
come back JSON-stringified (see the counterexample). -/
theorem c5_roundtrip (H : HmacFun) (key : String) (m : ZmqMessage)
    (hext : m.extra = []) :
    ZmqMessage.fromRaw H key (ZmqMessage.signAndSend H key m)
      = Except.ok { m with hmac := H key (ZmqMessage.bodyFrames m) } := by
  simp [ZmqMessage.signAndSend, ZmqMessage.bodyFrames, hext, ZmqMessage.fromRaw,
        Frame.parse, Frame.text, ZmqMessage.verifyHmac]

theorem c5_witness :
    ZmqMessage.fromRaw constH "k"
        (ZmqMessage.signAndSend constH "k" (mkMsg "kernel_info_request"))
      = Except.ok { mkMsg "kernel_info_request" with
          hmac := constH "k" (ZmqMessage.bodyFrames (mkMsg "kernel_info_request")) } :=
  c5_roundtrip constH "k" (mkMsg "kernel_info_request") rfl

theorem routeMessage_execute_impl (H : HmacFun) (key : String) (ts : Bool)
    (r : Option Json → Bool) (sock : Chan) (now : String) (st : Nat)
    (msg : ZmqMessage) (hmt : ZmqServer.msgTypeStr msg = some "execute_request") :
    ZmqServer.routeMessage H key (JupyterHandlerImpl.handler ts r) sock now st msg
      = (st + 1,
         [Event.send sock (ZmqMessage.signAndSend H key
           (replyWith now msg "execute_reply" (execReplyJson (st + 1))))],
         none) := by
  simp [ZmqServer.routeMessage, hmt, ZmqServer.handleExecute,
        JupyterHandlerImpl.handler, JupyterHandlerImpl.handleExecute, execReplyJson]

/-- C2: for every request that decodes successfully, the events of
handleShellMessage are exactly one "busy" status broadcast on iopub, then
the routed events — none of which is an iopub send — then exactly one
"idle" status broadcast on iopub, in that order, for any handler (including
one that throws); both status messages carry the request's header as
parentHeader, msg_type "status" in their own header, and the corresponding
execution_state as content. -/
theorem c2_status_bracket {σ : Type} (H : HmacFun) (key : String)
    (hd : JupyterHandler σ) (sock : Chan) (nB nR nI : String) (st : σ)
    (raw : List Frame) (msg : ZmqMessage)
    (hdec : ZmqMessage.fromRaw H key raw = Except.ok msg)
    (hsock : sock ≠ Chan.iopub) :
    (ZmqServer.handleShellMessage H key hd sock nB nR nI st raw).2.1
      = Event.send Chan.iopub (ZmqServer.publishStatus H key "busy" nB msg)
          :: (ZmqServer.routeMessage H key hd sock nR st msg).2.1
          ++ [Event.send Chan.iopub (ZmqServer.publishStatus H key "idle" nI msg)]
    ∧ (ZmqServer.routeMessage H key hd sock nR st msg).2.1.filter Event.isIopubSend = []
    ∧ (statusMessage nB "busy" msg).parent = msg.header
    ∧ (statusMessage nI "idle" msg).parent = msg.header
    ∧ (statusMessage nB "busy" msg).header.get? "msg_type" = some (Json.str "status")
    ∧ (statusMessage nI "idle" msg).header.get? "msg_type" = some (Json.str "status")
    ∧ (statusMessage nB "busy" msg).content
        = Json.obj [("execution_state", Json.str "busy")]
    ∧ (statusMessage nI "idle" msg).content
        = Json.obj [("execution_state", Json.str "idle")] := by
  refine ⟨?_, ?_, rfl, rfl, replyWith_msg_type nB msg "status" _,
          replyWith_msg_type nI msg "status" _, rfl, rfl⟩
  · rw [handleShellMessage_ok H key hd sock nB nR nI st raw msg hdec]
  · rw [List.filter_eq_nil_iff]
    intro e he
    rcases routeMessage_events H key hd sock nR st msg e he with ⟨w, rfl⟩ | ⟨mt, c, rfl⟩
    · simp [Event.isIopubSend]
    · simp [isIopubSend_send, hsock]

theorem c2_witness :
    (ZmqServer.handleShellMessage constH "k" implH Chan.shell "b" "r" "i" 0
        (mkRaw "kernel_info_request")).2.1
      = Event.send Chan.iopub (ZmqServer.publishStatus constH "k" "busy" "b"
            (mkMsg "kernel_info_request"))
          :: (ZmqServer.routeMessage constH "k" implH Chan.shell "r" 0
            (mkMsg "kernel_info_request")).2.1
          ++ [Event.send Chan.iopub (ZmqServer.publishStatus constH "k" "idle" "i"
            (mkMsg "kernel_info_request"))]
    ∧ (ZmqServer.routeMessage constH "k" implH Chan.shell "r" 0
        (mkMsg "kernel_info_request")).2.1.filter Event.isIopubSend = [] :=
  ⟨(c2_status_bracket constH "k" implH Chan.shell "b" "r" "i" 0
      (mkRaw "kernel_info_request") (mkMsg "kernel_info_request")
      (mkRaw_decodes "kernel_info_request") (by decide)).1,
   (c2_status_bracket constH "k" implH Chan.shell "b" "r" "i" 0
      (mkRaw "kernel_info_request") (mkMsg "kernel_info_request")
      (mkRaw_decodes "kernel_info_request") (by decide)).2.1⟩

/-- C6 counterexample: with an executor whose execution fails (it reports
false), handleExecute still replies with status "ok" — never "error" —
because the execution's promise is dropped before its result exists; the
claimed "status according to the execution result" is refuted here. -/
theorem c6_counterexample :
    JupyterHandlerImpl.handleExecute (fun _ => false)
        (Json.obj [("code", Json.str "bad code")]) 0
      = (1, Json.obj [("status", Json.str "ok"), ("execution_count", Json.num 1)])
    ∧ (Json.obj [("status", Json.str "ok"),
        ("execution_count", Json.num 1)]).get? "status" = some (Json.str "ok")
    ∧ some (Json.str "ok") ≠ some (Json.str "error") := by
  refine ⟨rfl, rfl, ?_⟩
  simp

/-- C6 amended: handleExecute increments the execution counter on every call
and its value is independent of the execution result (the promise is
dropped); two execute_request messages routed in sequence through the
dispatcher produce execute_reply contents with strictly increasing
execution_count, each with status "ok" regardless of the executors'
outcomes. -/
theorem c6_execution_count (H : HmacFun) (key : String) (ts : Bool)
    (r₁ r₂ : Option Json → Bool) (sock : Chan) (n₁ n₂ : String) (st : Nat)
    (msg₁ msg₂ : ZmqMessage)
    (h₁ : ZmqServer.msgTypeStr msg₁ = some "execute_request")
    (h₂ : ZmqServer.msgTypeStr msg₂ = some "execute_request") :
    ZmqServer.routeMessage H key (JupyterHandlerImpl.handler ts r₁) sock n₁ st msg₁
      = (st + 1, [Event.send sock (ZmqMessage.signAndSend H key
          (replyWith n₁ msg₁ "execute_reply" (execReplyJson (st + 1))))], none)
    ∧ ZmqServer.routeMessage H key (JupyterHandlerImpl.handler ts r₂) sock n₂ (st + 1) msg₂
      = (st + 2, [Event.send sock (ZmqMessage.signAndSend H key
          (replyWith n₂ msg₂ "execute_reply" (execReplyJson (st + 2))))], none)
    ∧ st + 1 < st + 2
    ∧ (execReplyJson (st + 1)).get? "status" = some (Json.str "ok")
    ∧ (execReplyJson (st + 2)).get? "status" = some (Json.str "ok")
    ∧ (execReplyJson (st + 1)).get? "execution_count"
        = some (Json.num (Int.ofNat (st + 1)))
    ∧ (execReplyJson (st + 2)).get? "execution_count"
        = some (Json.num (Int.ofNat (st + 2))) :=
  ⟨routeMessage_execute_impl H key ts r₁ sock n₁ st msg₁ h₁,
   routeMessage_execute_impl H key ts r₂ sock n₂ (st + 1) msg₂ h₂,
   by omega, rfl, rfl, rfl, rfl⟩

theorem c6_witness :
    ZmqServer.routeMessage constH "k" (JupyterHandlerImpl.handler true (fun _ => true))
        Chan.shell "r" 0 (mkMsg "execute_request")
      = (1, [Event.send Chan.shell (ZmqMessage.signAndSend constH "k"
          (replyWith "r" (mkMsg "execute_request") "execute_reply" (execReplyJson 1)))],
         none)
    ∧ ZmqServer.routeMessage constH "k" (JupyterHandlerImpl.handler true (fun _ => true))
        Chan.shell "r2" 1 (mkMsg "execute_request")
      = (2, [Event.send Chan.shell (ZmqMessage.signAndSend constH "k"
          (replyWith "r2" (mkMsg "execute_request") "execute_reply" (execReplyJson 2)))],
         none)
    ∧ 1 < 2
    ∧ (execReplyJson 1).get? "status" = some (Json.str "ok")
    ∧ (execReplyJson 2).get? "status" = some (Json.str "ok")
    ∧ (execReplyJson 1).get? "execution_count" = some (Json.num (Int.ofNat 1))
    ∧ (execReplyJson 2).get? "execution_count" = some (Json.num (Int.ofNat 2)) :=
  c6_execution_count constH "k" true (fun _ => true) (fun _ => true) Chan.shell
    "r" "r2" 0 (mkMsg "execute_request") (mkMsg "execute_request") rfl rfl

/-- C7: for every successfully decoded request, every reply derived from it
copies the request's routing identity and delimiter verbatim, carries the
request's header as parentHeader and the request's session and username in
its own header; and the events of handleShellMessage are the busy status,
then the routed events — each of which is either a warning or a send on the
very socket the request arrived on — then the idle status. -/
theorem c7_reply_linkage {σ : Type} (H : HmacFun) (key : String)
    (hd : JupyterHandler σ) (sock : Chan) (nB nR nI : String) (st : σ)
    (raw : List Frame) (msg : ZmqMessage) (now mt : String) (c : Json)
    (hdec : ZmqMessage.fromRaw H key raw = Except.ok msg) :
    (replyWith now msg mt c).identity = msg.identity
    ∧ (replyWith now msg mt c).delim = msg.delim
    ∧ (replyWith now msg mt c).parent = msg.header
    ∧ (replyWith now msg mt c).header.get? "session" = msg.header.get? "session"
    ∧ (replyWith now msg mt c).header.get? "username" = msg.header.get? "username"
    ∧ (ZmqServer.handleShellMessage H key hd sock nB nR nI st raw).2.1
        = Event.send Chan.iopub (ZmqServer.publishStatus H key "busy" nB msg)
            :: (ZmqServer.routeMessage H key hd sock nR st msg).2.1
            ++ [Event.send Chan.iopub (ZmqServer.publishStatus H key "idle" nI msg)]
    ∧ (ZmqServer.routeMessage H key hd sock nR st msg).2.1.all (Event.onChan sock)
        = true := by
  refine ⟨rfl, rfl, rfl, ?_, ?_, ?_, ?_⟩
  · rw [replyWith_get_ne now msg mt c "session" (by decide),
        createReply_get_session]
  · rw [replyWith_get_ne now msg mt c "username" (by decide),
        createReply_get_username]
  · rw [handleShellMessage_ok H key hd sock nB nR nI st raw msg hdec]
  · rw [List.all_eq_true]
    intro e he
    rcases routeMessage_events H key hd sock nR st msg e he with ⟨w, rfl⟩ | ⟨mt', c', rfl⟩
    · rfl
    · simp [Event.onChan]

theorem c7_witness :
    (replyWith "r" (mkMsg "is_complete_request") "is_complete_reply"
        (Json.obj [("status", Json.str "complete")])).header.get? "session"
      = (mkMsg "is_complete_request").header.get? "session"
    ∧ (ZmqServer.routeMessage constH "k" implH Chan.control "r" 0
        (mkMsg "is_complete_request")).2.1.all (Event.onChan Chan.control) = true := by
  have h := c7_reply_linkage constH "k" implH Chan.control "b" "r" "i" 0
    (mkRaw "is_complete_request") (mkMsg "is_complete_request") "r"
    "is_complete_reply" (Json.obj [("status", Json.str "complete")])
    (mkRaw_decodes "is_complete_request")
  exact ⟨h.2.2.2.1, h.2.2.2.2.2.2⟩

/-- C8: for every decoded request whose msg_type is none of the four
recognized request types, handleShellMessage logs exactly one warning,
sends no reply on any channel — its only sends are the busy and idle status
broadcasts on iopub — leaves the handler state unchanged and throws
nothing. -/
theorem c8_unrecognized {σ : Type} (H : HmacFun) (key : String)
    (hd : JupyterHandler σ) (sock : Chan) (nB nR nI : String) (st : σ)
    (raw : List Frame) (msg : ZmqMessage)
    (hdec : ZmqMessage.fromRaw H key raw = Except.ok msg)
    (h1 : ZmqServer.msgTypeStr msg ≠ some "kernel_info_request")
    (h2 : ZmqServer.msgTypeStr msg ≠ some "execute_request")
    (h3 : ZmqServer.msgTypeStr msg ≠ some "is_complete_request")
    (h4 : ZmqServer.msgTypeStr msg ≠ some "shutdown_request") :
    ZmqServer.handleShellMessage H key hd sock nB nR nI st raw
      = (st,
         [Event.send Chan.iopub (ZmqServer.publishStatus H key "busy" nB msg),
          Event.warn (ZmqServer.unknownWarn (ZmqServer.msgTypeStr msg)),
          Event.send Chan.iopub (ZmqServer.publishStatus H key "idle" nI msg)],
         none) := by
  rw [handleShellMessage_ok H key hd sock nB nR nI st raw msg hdec,
      routeMessage_default H key hd sock nR st msg h1 h2 h3 h4]
  rfl

theorem c8_witness :
    ZmqServer.handleShellMessage constH "k" implH Chan.shell "b" "r" "i" 0
        (mkRaw "frobnicate_request")
      = (0,
         [Event.send Chan.iopub (ZmqServer.publishStatus constH "k" "busy" "b"
            (mkMsg "frobnicate_request")),
          Event.warn (ZmqServer.unknownWarn (ZmqServer.msgTypeStr
            (mkMsg "frobnicate_request"))),
          Event.send Chan.iopub (ZmqServer.publishStatus constH "k" "idle" "i"
            (mkMsg "frobnicate_request"))],
         none) :=
  c8_unrecognized constH "k" implH Chan.shell "b" "r" "i" 0
    (mkRaw "frobnicate_request") (mkMsg "frobnicate_request")
    (mkRaw_decodes "frobnicate_request")
    (by decide) (by decide) (by decide) (by decide)

/-- C9: the kernel_info reply content always has protocol_version "5.3", but
its language_info.file_extension is ".ts" even when the process is invoked
as the JavaScript kernel: main computes the variant flag from the command
name (false for "jslab") yet passes the literal true to JupyterHandlerImpl,
so the configured variant's extension ".js" is never produced. -/
theorem c9_kernel_variant :
    mainTsFlag "jslab" = false
    ∧ (JupyterHandlerImpl.handleKernel (mainHandlerFlag "jslab")).get? "protocol_version"
        = some (Json.str "5.3")
    ∧ ((JupyterHandlerImpl.handleKernel (mainHandlerFlag "jslab")).get? "language_info").bind
        (fun li => li.get? "file_extension") = some (Json.str ".ts") := by
  refine ⟨by decide, rfl, rfl⟩

/-- C10: handleShutdown replies with content restart: false for every
request content — the requested restart flag is never echoed back. -/
theorem c10_shutdown_restart_false (req : Json) (st : Nat) :
    JupyterHandlerImpl.handleShutdown req st
      = (st, Json.obj [("restart", Json.bool false)])
    ∧ (JupyterHandlerImpl.handleShutdown
        (Json.obj [("restart", Json.bool true)]) st).2.get? "restart"
      = some (Json.bool false) :=
  ⟨rfl, rfl⟩
